import Mathlib

/-!
Verification of the wind-energy export optimization model built by
`windoptimization.py`.

The script reads two production time series (Kosovo, column `XK`, and
North Macedonia, column `MK`), builds a pulp MILP with, per timestamp,
two non-negative continuous export variables (`Ruajtja_KM`, `Ruajtja_MK`),
one binary direction flag `z`, the hardcoded big-M constant `M = 1000`,
a maximization objective summing both export variables over all
timestamps, and four constraints per timestamp; it then calls
`problemi.solve()`, prints the status, and unconditionally extracts the
variable values into a result table.

Timestamps are embedded as naturals (ordered, comparable instants) and
energy values as rationals.
-/

namespace WindOpt

/-- One row of a production DataFrame: `(time, value)`, where the value
column is `XK` for Kosovo and `MK` for North Macedonia. -/
abbrev DataRow := Nat × ℚ

/-- A production DataFrame (`kosovo_data` / `macedonia_data`), already
filtered to the calendar window (lines 8-18 of the script); the filtering
itself is the loader's concern and is not part of the core. -/
abbrev DataFrame := List DataRow

/-- Embeds `df.loc[df['time'] == t, col].values[0]` (lines 45-46): the value
of the first row whose time equals `t`. `none` embeds the `IndexError`
raised by `.values[0]` when no row matches. -/
def lookupValue (data : DataFrame) (t : Nat) : Option ℚ :=
  ((data.filter (fun r => r.1 == t)).head?).map Prod.snd

/-- Line 24: `koha = kosovo_data['time'].tolist()` — the timestamp domain
is taken from Kosovo's series. -/
def koha (kosovo : DataFrame) : List Nat :=
  kosovo.map Prod.fst

/-- The decision variables created by `LpVariable.dicts` (lines 27-31):
`Ruajtja_KM[t]` and `Ruajtja_MK[t]` are continuous with `lowBound=0`
(that bound is part of `VarBounds` below); `z[t]` is binary. -/
inductive Var where
  | ruajtja_km (t : Nat)
  | ruajtja_mk (t : Nat)
  | z (t : Nat)
deriving DecidableEq

/-- Line 32: `M = 1000`, the hardcoded big-M literal. -/
def M : ℚ := 1000

/-- The constraint forms added in the loop of lines 39-46:
`abBigM t m` is `ruajtja_km[t] <= z[t]*m` (line 41),
`baBigM t m` is `ruajtja_mk[t] <= (1-z[t])*m` (line 42),
`abCap t c` is `ruajtja_km[t] <= c` with `c` Kosovo's production (line 45),
`baCap t c` is `ruajtja_mk[t] <= c` with `c` Macedonia's production
(line 46). The inequality each form denotes is given by `satConstr`. -/
inductive Constr where
  | abBigM (t : Nat) (m : ℚ)
  | baBigM (t : Nat) (m : ℚ)
  | abCap (t : Nat) (cap : ℚ)
  | baCap (t : Nat) (cap : ℚ)
deriving DecidableEq

/-- The only failure the build can hit: the `IndexError` from
`.values[0]` (lines 45-46) when timestamp `t` has no row in a series. -/
inductive BuildError where
  | indexError (t : Nat)
deriving DecidableEq

/-- The assembled pulp problem: timestamp domain, the created variables in
creation order, the big-M value used, and the constraint list in the order
the loop added them. -/
structure Model where
  koha : List Nat
  vars : List Var
  bigM : ℚ
  constraints : List Constr
deriving DecidableEq

/-- Lines 27-31: variable creation order — first the `Ruajtja_KM` dict,
then `Ruajtja_MK`, then `z`, each over the whole timestamp list. -/
def buildVars (ks : List Nat) : List Var :=
  ks.map Var.ruajtja_km ++ ks.map Var.ruajtja_mk ++ ks.map Var.z

/-- The constraint loop (lines 39-46), parameterized by the big-M value
`m`. For each `t`: the two big-M constraints, then the two production-cap
constraints obtained by looking `t` up in each series; a failed lookup is
the `IndexError` of `.values[0]`, which aborts the build. -/
def buildConstraintsWith (m : ℚ) (kosovo macedonia : DataFrame) :
    List Nat → Except BuildError (List Constr)
  | [] => Except.ok []
  | t :: ts =>
    match lookupValue kosovo t with
    | none => Except.error (BuildError.indexError t)
    | some pa =>
      match lookupValue macedonia t with
      | none => Except.error (BuildError.indexError t)
      | some pb =>
        match buildConstraintsWith m kosovo macedonia ts with
        | Except.error e => Except.error e
        | Except.ok rest =>
          Except.ok (Constr.abBigM t m :: Constr.baBigM t m ::
            Constr.abCap t pa :: Constr.baCap t pb :: rest)

/-- Outcome of running the build section of the script (lines 20-46).
`varsCreated` records the variables made by `LpVariable.dicts`
(lines 27-31), which run before the constraint loop: they exist even when
the loop later raises. `result` is the assembled model, or the error. -/
structure BuildTrace where
  varsCreated : List Var
  result : Except BuildError Model

/-- The model build (lines 20-46) with the big-M value as a parameter:
take the timestamp list from Kosovo's series, create all variables, then
run the constraint loop. -/
def buildModelWith (m : ℚ) (kosovo macedonia : DataFrame) : BuildTrace :=
  let ks := koha kosovo
  let vs := buildVars ks
  { varsCreated := vs
    result :=
      match buildConstraintsWith m kosovo macedonia ks with
      | Except.error e => Except.error e
      | Except.ok cs =>
        Except.ok { koha := ks, vars := vs, bigM := m, constraints := cs } }

/-- The build exactly as the script performs it: big-M fixed to the
literal `M = 1000` (line 32). The script exposes no way to override it. -/
def buildModel (kosovo macedonia : DataFrame) : BuildTrace :=
  buildModelWith M kosovo macedonia

/-- A valuation of the decision variables: `ab t` is `Ruajtja_KM[t]`
(Kosovo → Macedonia), `ba t` is `Ruajtja_MK[t]` (Macedonia → Kosovo),
`z t` the direction flag. -/
structure Assignment where
  ab : Nat → ℚ
  ba : Nat → ℚ
  z : Nat → ℚ

/-- The inequality a constraint row denotes (lines 41-42, 45-46). -/
def satConstr (a : Assignment) : Constr → Prop
  | Constr.abBigM t m => a.ab t ≤ a.z t * m
  | Constr.baBigM t m => a.ba t ≤ (1 - a.z t) * m
  | Constr.abCap t c => a.ab t ≤ c
  | Constr.baCap t c => a.ba t ≤ c

/-- The variable-domain conditions declared at creation (lines 27-31):
`lowBound=0` on both continuous export variables, `cat="Binary"` on `z`. -/
def VarBounds (model : Model) (a : Assignment) : Prop :=
  ∀ t ∈ model.koha, 0 ≤ a.ab t ∧ 0 ≤ a.ba t ∧ (a.z t = 0 ∨ a.z t = 1)

/-- Feasibility for the built model: variable bounds plus every
constraint added by the loop. -/
def Feasible (model : Model) (a : Assignment) : Prop :=
  VarBounds model a ∧ ∀ c ∈ model.constraints, satConstr a c

/-- Line 36: the objective `lpSum(ruajtja_km[t] + ruajtja_mk[t] for t in
koha)`. -/
def objective (model : Model) (a : Assignment) : ℚ :=
  (model.koha.map (fun t => a.ab t + a.ba t)).sum

/-- Optimality for the `LpMaximize` problem (line 21): feasible, and no
feasible assignment has a larger objective. -/
def IsOptimal (model : Model) (a : Assignment) : Prop :=
  Feasible model a ∧ ∀ b, Feasible model b → objective model b ≤ objective model a

/-- One row of the `rezultatet` DataFrame (lines 55-59). The export
columns hold `.varValue`, which is `None` when the solver left the
variable unassigned — hence `Option ℚ`. -/
structure ResultRow where
  koha : Nat
  ruajtja_km : Option ℚ
  ruajtja_mk : Option ℚ
deriving DecidableEq

/-- The solver status set of the design (pulp's `LpStatus` after
`problemi.solve()`, line 49). -/
inductive LpStatus where
  | Optimal
  | Infeasible
  | Unbounded
  | NotSolved
  | SolverError
deriving DecidableEq

/-- Lines 55-59: build the result table — one row per timestamp, in
timestamp order, reading each variable's `.varValue`. -/
def rezultatet (ks : List Nat) (kmVal mkVal : Nat → Option ℚ) : List ResultRow :=
  ks.map (fun t => { koha := t, ruajtja_km := kmVal t, ruajtja_mk := mkVal t })

/-- The post-solve section (lines 49-59) as a function of the status the
solver returned and the variable values it left: the script prints the
status (line 52) and then extracts unconditionally — no branch on
`status` exists in the source, so the status argument is ignored. -/
def solveAndExtract (status : LpStatus) (ks : List Nat)
    (kmVal mkVal : Nat → Option ℚ) : List ResultRow :=
  rezultatet ks kmVal mkVal

/-- Alignment precondition of the spec: every timestamp of Kosovo's
series has a row in Macedonia's series. -/
@[reducible] def Aligned (kosovo macedonia : DataFrame) : Prop :=
  ∀ t ∈ koha kosovo, (lookupValue macedonia t).isSome = true

/-- The single-timestamp instance of §8's scenario: `prodA[t1] = 10`. -/
def kosovo1 : DataFrame := [(1, 10)]

/-- The single-timestamp instance of §8's scenario: `prodB[t1] = 4`. -/
def macedonia1 : DataFrame := [(1, 4)]

/-- The model the script builds on `kosovo1`/`macedonia1`. -/
def model1 : Model :=
  { koha := [1]
    vars := [Var.ruajtja_km 1, Var.ruajtja_mk 1, Var.z 1]
    bigM := 1000
    constraints := [Constr.abBigM 1 1000, Constr.baBigM 1 1000,
      Constr.abCap 1 10, Constr.baCap 1 4] }

/-- Export everything A→B: `Ruajtja_KM[1] = 10`, `Ruajtja_MK[1] = 0`,
`z[1] = 1`. -/
def assign1 : Assignment :=
  { ab := fun _ => 10, ba := fun _ => 0, z := fun _ => 1 }

/-- Both productions are 2000, above the hardcoded big-M of 1000. -/
def kosovoBig : DataFrame := [(1, 2000)]

/-- Macedonia's series for the oversized-production instance. -/
def macedoniaBig : DataFrame := [(1, 2000)]

/-- The model the script builds on `kosovoBig`/`macedoniaBig`. -/
def modelBig : Model :=
  { koha := [1]
    vars := [Var.ruajtja_km 1, Var.ruajtja_mk 1, Var.z 1]
    bigM := 1000
    constraints := [Constr.abBigM 1 1000, Constr.baBigM 1 1000,
      Constr.abCap 1 2000, Constr.baCap 1 2000] }

/-- A feasible assignment on `modelBig` exporting the big-M cap of 1000
(below the production of 2000) in the A→B direction. -/
def assignBig : Assignment :=
  { ab := fun _ => 1000, ba := fun _ => 0, z := fun _ => 1 }

/-- Kosovo's series for the misaligned instance: timestamp 1 present. -/
def kosovoX : DataFrame := [(1, 10)]

/-- Macedonia's series for the misaligned instance: empty, so timestamp 1
has no row. -/
def macedoniaX : DataFrame := []

/-- The all-zero valuation. -/
def zeroAssign : Assignment :=
  { ab := fun _ => 0, ba := fun _ => 0, z := fun _ => 0 }

/-- The model the script builds on two empty series. -/
def modelE : Model :=
  { koha := [], vars := [], bigM := 1000, constraints := [] }

/-- The model built on `kosovo1`/`macedonia1` when the big-M value is the
deliberately undersized `1`. -/
def modelSmall1 : Model :=
  { koha := [1]
    vars := [Var.ruajtja_km 1, Var.ruajtja_mk 1, Var.z 1]
    bigM := 1
    constraints := [Constr.abBigM 1 1, Constr.baBigM 1 1,
      Constr.abCap 1 10, Constr.baCap 1 4] }

theorem lookupValue_cons (r : DataRow) (data : DataFrame) (t : Nat) :
    lookupValue (r :: data) t =
      if r.1 = t then some r.2 else lookupValue data t := by
  by_cases h : r.1 = t
  · simp [lookupValue, List.filter_cons, h]
  · simp [lookupValue, List.filter_cons, h]

theorem lookup_isSome_of_mem_koha (kosovo : DataFrame) (t : Nat)
    (ht : t ∈ koha kosovo) : (lookupValue kosovo t).isSome = true := by
  induction kosovo with
  | nil => simp [koha] at ht
  | cons r rest ih =>
    rw [lookupValue_cons]
    by_cases h : r.1 = t
    · simp [h]
    · simp only [h, if_false]
      apply ih
      simp only [koha, List.map_cons, List.mem_cons] at ht
      rcases ht with h1 | h2
      · exact absurd h1.symm h
      · exact h2

theorem buildConstraintsWith_ok (m : ℚ) (kosovo macedonia : DataFrame)
    (ts : List Nat)
    (h : ∀ t ∈ ts, (lookupValue kosovo t).isSome = true ∧
        (lookupValue macedonia t).isSome = true) :
    buildConstraintsWith m kosovo macedonia ts =
      Except.ok (ts.flatMap (fun t =>
        [Constr.abBigM t m, Constr.baBigM t m,
         Constr.abCap t ((lookupValue kosovo t).getD 0),
         Constr.baCap t ((lookupValue macedonia t).getD 0)])) := by
  induction ts with
  | nil => rfl
  | cons t ts ih =>
    obtain ⟨ha, hb⟩ := h t (List.mem_cons_self t ts)
    obtain ⟨pa, hpa⟩ := Option.isSome_iff_exists.mp ha
    obtain ⟨pb, hpb⟩ := Option.isSome_iff_exists.mp hb
    have ih2 := ih (fun s hs => h s (List.mem_cons_of_mem t hs))
    simp [buildConstraintsWith, hpa, hpb, ih2, List.flatMap_cons]

theorem buildConstraintsWith_mem (m : ℚ) (kosovo macedonia : DataFrame) :
    ∀ (ts : List Nat) (cs : List Constr),
      buildConstraintsWith m kosovo macedonia ts = Except.ok cs →
      ∀ t ∈ ts,
        Constr.abBigM t m ∈ cs ∧ Constr.baBigM t m ∈ cs ∧
        (∃ pa, lookupValue kosovo t = some pa ∧ Constr.abCap t pa ∈ cs) ∧
        (∃ pb, lookupValue macedonia t = some pb ∧ Constr.baCap t pb ∈ cs) := by
  intro ts
  induction ts with
  | nil =>
    intro cs h t ht
    simp at ht
  | cons s ts ih =>
    intro cs h t ht
    simp only [buildConstraintsWith] at h
    cases hpa : lookupValue kosovo s with
    | none => rw [hpa] at h; simp at h
    | some pa =>
      rw [hpa] at h
      cases hpb : lookupValue macedonia s with
      | none => rw [hpb] at h; simp at h
      | some pb =>
        rw [hpb] at h
        cases hrec : buildConstraintsWith m kosovo macedonia ts with
        | error e => rw [hrec] at h; simp at h
        | ok rest =>
          rw [hrec] at h
          injection h with h
          subst h
          rcases List.mem_cons.mp ht with rfl | hts
          · exact ⟨by simp, by simp, ⟨pa, hpa, by simp⟩, ⟨pb, hpb, by simp⟩⟩
          · obtain ⟨h1, h2, ⟨qa, hqa, h3⟩, ⟨qb, hqb, h4⟩⟩ := ih rest hrec t hts
            exact ⟨by simp [h1], by simp [h2], ⟨qa, hqa, by simp [h3]⟩,
              ⟨qb, hqb, by simp [h4]⟩⟩

theorem buildConstraintsWith_err (m : ℚ) (kosovo macedonia : DataFrame) :
    ∀ (ts : List Nat), (∀ s ∈ ts, (lookupValue kosovo s).isSome = true) →
      ∀ t ∈ ts, lookupValue macedonia t = none →
      ∃ u, buildConstraintsWith m kosovo macedonia ts =
        Except.error (BuildError.indexError u) ∧
        lookupValue macedonia u = none := by
  intro ts
  induction ts with
  | nil =>
    intro _ t ht
    simp at ht
  | cons s ts ih =>
    intro hk t ht hmiss
    obtain ⟨pa, hpa⟩ := Option.isSome_iff_exists.mp (hk s (List.mem_cons_self s ts))
    cases hpb : lookupValue macedonia s with
    | none =>
      exact ⟨s, by simp [buildConstraintsWith, hpa, hpb], hpb⟩
    | some pb =>
      have hts : t ∈ ts := by
        rcases List.mem_cons.mp ht with rfl | hts
        · rw [hmiss] at hpb; cases hpb
        · exact hts
      obtain ⟨u, herr, hu⟩ :=
        ih (fun r hr => hk r (List.mem_cons_of_mem s hr)) t hts hmiss
      exact ⟨u, by simp [buildConstraintsWith, hpa, hpb, herr], hu⟩

theorem buildModelWith_ok (m : ℚ) (kosovo macedonia : DataFrame)
    (model : Model)
    (h : (buildModelWith m kosovo macedonia).result = Except.ok model) :
    model.koha = koha kosovo ∧ model.vars = buildVars (koha kosovo) ∧
    model.bigM = m ∧
    buildConstraintsWith m kosovo macedonia (koha kosovo) =
      Except.ok model.constraints := by
  simp only [buildModelWith] at h
  cases hc : buildConstraintsWith m kosovo macedonia (koha kosovo) with
  | error e => rw [hc] at h; simp at h
  | ok cs =>
    rw [hc] at h
    injection h with h
    subst h
    exact ⟨rfl, rfl, rfl, rfl⟩

theorem feasible_facts (m : ℚ) (kosovo macedonia : DataFrame) (model : Model)
    (a : Assignment)
    (hb : (buildModelWith m kosovo macedonia).result = Except.ok model)
    (hf : Feasible model a) (t : Nat) (ht : t ∈ model.koha) :
    0 ≤ a.ab t ∧ 0 ≤ a.ba t ∧ (a.z t = 0 ∨ a.z t = 1) ∧
    a.ab t ≤ a.z t * m ∧ a.ba t ≤ (1 - a.z t) * m ∧
    (∃ pa, lookupValue kosovo t = some pa ∧ a.ab t ≤ pa) ∧
    (∃ pb, lookupValue macedonia t = some pb ∧ a.ba t ≤ pb) := by
  obtain ⟨hkoha, _hvars, _hbig, hcons⟩ :=
    buildModelWith_ok m kosovo macedonia model hb
  have ht2 : t ∈ koha kosovo := hkoha ▸ ht
  obtain ⟨h1, h2, ⟨pa, hpa, h3⟩, ⟨pb, hpb, h4⟩⟩ :=
    buildConstraintsWith_mem m kosovo macedonia (koha kosovo)
      model.constraints hcons t ht2
  obtain ⟨hvb, hsat⟩ := hf
  obtain ⟨hab0, hba0, hz⟩ := hvb t ht
  exact ⟨hab0, hba0, hz, hsat _ h1, hsat _ h2,
    ⟨pa, hpa, hsat _ h3⟩, ⟨pb, hpb, hsat _ h4⟩⟩

theorem build1_ok : (buildModel kosovo1 macedonia1).result = Except.ok model1 := rfl

theorem buildBig_ok :
    (buildModel kosovoBig macedoniaBig).result = Except.ok modelBig := rfl

theorem buildSmall_ok :
    (buildModelWith 1 kosovo1 macedonia1).result = Except.ok modelSmall1 := rfl

theorem feasibleBig : Feasible modelBig assignBig := by
  constructor
  · intro t ht
    simp only [modelBig, List.mem_singleton] at ht
    subst ht
    refine ⟨by norm_num [assignBig], by norm_num [assignBig], Or.inr rfl⟩
  · intro c hc
    simp only [modelBig] at hc
    fin_cases hc <;> norm_num [satConstr, assignBig]

theorem feasibleSmall : Feasible modelSmall1 zeroAssign := by
  constructor
  · intro t ht
    simp only [modelSmall1, List.mem_singleton] at ht
    subst ht
    refine ⟨by norm_num [zeroAssign], by norm_num [zeroAssign], Or.inl rfl⟩
  · intro c hc
    simp only [modelSmall1] at hc
    fin_cases hc <;> norm_num [satConstr, zeroAssign]

theorem feasible1 : Feasible model1 assign1 := by
  constructor
  · intro t ht
    simp only [model1, List.mem_singleton] at ht
    subst ht
    refine ⟨by norm_num [assign1], by norm_num [assign1], Or.inr rfl⟩
  · intro c hc
    simp only [model1] at hc
    fin_cases hc <;> norm_num [satConstr, assign1]

theorem optimal1 : IsOptimal model1 assign1 := by
  refine ⟨feasible1, ?_⟩
  intro b hb
  have hobj : objective model1 b = b.ab 1 + b.ba 1 := by
    simp [objective, model1]
  have hobj1 : objective model1 assign1 = 10 := by
    simp [objective, model1, assign1]
  rw [hobj, hobj1]
  obtain ⟨hvb, hsat⟩ := hb
  obtain ⟨hab0, hba0, hz⟩ := hvb 1 (by simp [model1])
  have h1 : b.ab 1 ≤ b.z 1 * 1000 :=
    hsat (Constr.abBigM 1 1000) (by simp [model1])
  have h2 : b.ba 1 ≤ (1 - b.z 1) * 1000 :=
    hsat (Constr.baBigM 1 1000) (by simp [model1])
  have h3 : b.ab 1 ≤ 10 := hsat (Constr.abCap 1 10) (by simp [model1])
  have h4 : b.ba 1 ≤ 4 := hsat (Constr.baCap 1 4) (by simp [model1])
  rcases hz with hz | hz
  · rw [hz] at h1
    norm_num at h1
    linarith
  · rw [hz] at h2
    norm_num at h2
    linarith

/-- Claim C1: for every timestamp `t` of the domain the builder creates two
non-negative continuous export variables and one binary flag variable, the
maximization objective is the sum over all `t` of
`exportAB[t] + exportBA[t]`, and per `t` exactly the four constraints
`exportAB[t] ≤ flag[t]*BIG_M`, `exportBA[t] ≤ (1-flag[t])*BIG_M`,
`exportAB[t] ≤ prodA[t]`, `exportBA[t] ≤ prodB[t]` are added (with
`BIG_M = M`); non-negativity and binariness are the variable bounds every
feasible assignment satisfies. -/
theorem C1_model_structure (kosovo macedonia : DataFrame)
    (halign : Aligned kosovo macedonia) :
    ∃ model, (buildModel kosovo macedonia).result = Except.ok model ∧
      model.koha = koha kosovo ∧
      model.vars = (koha kosovo).map Var.ruajtja_km ++
        (koha kosovo).map Var.ruajtja_mk ++ (koha kosovo).map Var.z ∧
      model.bigM = M ∧
      model.constraints = (koha kosovo).flatMap (fun t =>
        [Constr.abBigM t M, Constr.baBigM t M,
         Constr.abCap t ((lookupValue kosovo t).getD 0),
         Constr.baCap t ((lookupValue macedonia t).getD 0)]) ∧
      (∀ a, objective model a =
        ((koha kosovo).map (fun t => a.ab t + a.ba t)).sum) ∧
      (∀ a, Feasible model a → ∀ t ∈ koha kosovo,
        0 ≤ a.ab t ∧ 0 ≤ a.ba t ∧ (a.z t = 0 ∨ a.z t = 1)) := by
  have hok := buildConstraintsWith_ok M kosovo macedonia (koha kosovo)
    (fun t ht => ⟨lookup_isSome_of_mem_koha kosovo t ht, halign t ht⟩)
  refine ⟨Model.mk (koha kosovo) (buildVars (koha kosovo)) M
      ((koha kosovo).flatMap (fun t =>
        [Constr.abBigM t M, Constr.baBigM t M,
         Constr.abCap t ((lookupValue kosovo t).getD 0),
         Constr.baCap t ((lookupValue macedonia t).getD 0)])),
    ?_, rfl, rfl, rfl, rfl, ?_, ?_⟩
  · simp only [buildModel, buildModelWith, hok]
  · intro a
    simp [objective]
  · intro a hf t ht
    exact hf.1 t ht

/-- Witness for C1 at the concrete aligned instance
`kosovo1 = [(1, 10)]`, `macedonia1 = [(1, 4)]`. -/
theorem C1_witness :
    ∃ model, (buildModel kosovo1 macedonia1).result = Except.ok model ∧
      model.koha = koha kosovo1 ∧
      model.vars = (koha kosovo1).map Var.ruajtja_km ++
        (koha kosovo1).map Var.ruajtja_mk ++ (koha kosovo1).map Var.z ∧
      model.bigM = M ∧
      model.constraints = (koha kosovo1).flatMap (fun t =>
        [Constr.abBigM t M, Constr.baBigM t M,
         Constr.abCap t ((lookupValue kosovo1 t).getD 0),
         Constr.baCap t ((lookupValue macedonia1 t).getD 0)]) ∧
      (∀ a, objective model a =
        ((koha kosovo1).map (fun t => a.ab t + a.ba t)).sum) ∧
      (∀ a, Feasible model a → ∀ t ∈ koha kosovo1,
        0 ≤ a.ab t ∧ 0 ≤ a.ba t ∧ (a.z t = 0 ∨ a.z t = 1)) :=
  C1_model_structure kosovo1 macedonia1 (by decide)

/-- Claim C2: in any Optimal solution of the model the script builds, for
every timestamp at most one export direction is nonzero:
`exportAB[t] = 0` or `exportBA[t] = 0`, a consequence of the binary flag
coupling alone (the proof uses only feasibility, not optimality of the
objective). -/
theorem C2_exclusivity (kosovo macedonia : DataFrame) (model : Model)
    (a : Assignment)
    (hb : (buildModel kosovo macedonia).result = Except.ok model)
    (hopt : IsOptimal model a) :
    ∀ t ∈ model.koha, a.ab t = 0 ∨ a.ba t = 0 := by
  intro t ht
  obtain ⟨hab0, hba0, hz, h1, h2, _, _⟩ :=
    feasible_facts M kosovo macedonia model a hb hopt.1 t ht
  rcases hz with hz | hz
  · left
    rw [hz, zero_mul] at h1
    exact le_antisymm h1 hab0
  · right
    rw [hz] at h2
    norm_num at h2
    exact le_antisymm h2 hba0

/-- Witness for C2: the optimal solution `assign1` of `model1` has
`exportBA[1] = 0`. -/
theorem C2_witness : assign1.ab 1 = 0 ∨ assign1.ba 1 = 0 :=
  C2_exclusivity kosovo1 macedonia1 model1 assign1 build1_ok optimal1 1
    (by decide)

/-- Claim C6: in any Optimal solution, each export is bounded below by 0
and above by the corresponding region's production at that timestamp. -/
theorem C6_production_bounds (kosovo macedonia : DataFrame) (model : Model)
    (a : Assignment)
    (hb : (buildModel kosovo macedonia).result = Except.ok model)
    (hopt : IsOptimal model a) :
    ∀ t ∈ model.koha, ∀ pa pb, lookupValue kosovo t = some pa →
      lookupValue macedonia t = some pb →
      0 ≤ a.ab t ∧ a.ab t ≤ pa ∧ 0 ≤ a.ba t ∧ a.ba t ≤ pb := by
  intro t ht pa pb hpa hpb
  obtain ⟨hab0, hba0, _, _, _, ⟨qa, hqa, h3⟩, ⟨qb, hqb, h4⟩⟩ :=
    feasible_facts M kosovo macedonia model a hb hopt.1 t ht
  have hqa2 : pa = qa := by
    rw [hpa] at hqa
    exact Option.some.inj hqa
  have hqb2 : pb = qb := by
    rw [hpb] at hqb
    exact Option.some.inj hqb
  subst hqa2
  subst hqb2
  exact ⟨hab0, h3, hba0, h4⟩

/-- Witness for C6 on `model1` with `prodA = 10`, `prodB = 4`. -/
theorem C6_witness :
    0 ≤ assign1.ab 1 ∧ assign1.ab 1 ≤ 10 ∧
    0 ≤ assign1.ba 1 ∧ assign1.ba 1 ≤ 4 :=
  C6_production_bounds kosovo1 macedonia1 model1 assign1 build1_ok optimal1
    1 (by decide) 10 4 (by decide) (by decide)

/-- Claim C7: on the single-timestamp instance `prodA[t1] = 10`,
`prodB[t1] = 4`, big-M `1000`, the build succeeds and the optimal
objective value is `10`: `assign1` (full A→B export) is feasible,
dominates every feasible assignment, and has objective `10`. -/
theorem C7_scenario_single :
    (buildModel kosovo1 macedonia1).result = Except.ok model1 ∧
    IsOptimal model1 assign1 ∧ objective model1 assign1 = 10 :=
  ⟨build1_ok, optimal1, by norm_num [objective, model1, assign1]⟩

/-- Counterexample to claim C3: with production 2000 in both series —
strictly above the big-M value — the build still succeeds (there is no
`BigMTooSmall` failure anywhere in the script) and the model carries the
hidden literal `1000 < 2000 = max(prodA ∪ prodB)`. -/
theorem C3_counterexample :
    (buildModel kosovoBig macedoniaBig).result = Except.ok modelBig ∧
    modelBig.bigM = 1000 ∧ lookupValue kosovoBig 1 = some 2000 ∧
    modelBig.bigM < 2000 :=
  ⟨rfl, rfl, rfl, by norm_num [modelBig]⟩

/-- Claim C3 (amended): `BIG_M` is the hidden literal `M = 1000`
hardcoded at line 32; the build takes no big-M parameter, performs no
validation, and for any aligned inputs — however large the productions —
silently succeeds with `bigM = 1000`. -/
theorem C3_bigM_hidden_literal (kosovo macedonia : DataFrame)
    (halign : Aligned kosovo macedonia) :
    ∃ model, (buildModel kosovo macedonia).result = Except.ok model ∧
      model.bigM = 1000 := by
  have hok := buildConstraintsWith_ok M kosovo macedonia (koha kosovo)
    (fun t ht => ⟨lookup_isSome_of_mem_koha kosovo t ht, halign t ht⟩)
  refine ⟨Model.mk (koha kosovo) (buildVars (koha kosovo)) M
      ((koha kosovo).flatMap (fun t =>
        [Constr.abBigM t M, Constr.baBigM t M,
         Constr.abCap t ((lookupValue kosovo t).getD 0),
         Constr.baCap t ((lookupValue macedonia t).getD 0)])),
    ?_, rfl⟩
  simp only [buildModel, buildModelWith, hok]

/-- Witness for the amended C3 at the oversized-production instance. -/
theorem C3_witness :
    ∃ model, (buildModel kosovoBig macedoniaBig).result = Except.ok model ∧
      model.bigM = 1000 :=
  C3_bigM_hidden_literal kosovoBig macedoniaBig (by decide)

/-- Counterexample to claim C4: with solver status `Infeasible` and no
assigned variable values, the script still returns a full, non-empty
result row list rather than failing with `NoSolutionAvailable`. -/
theorem C4_counterexample :
    solveAndExtract LpStatus.Infeasible [1] (fun _ => none) (fun _ => none) =
      [{ koha := 1, ruajtja_km := none, ruajtja_mk := none }] ∧
    solveAndExtract LpStatus.Infeasible [1] (fun _ => none) (fun _ => none) ≠
      [] :=
  ⟨rfl, by simp [solveAndExtract, rezultatet]⟩

/-- Claim C4 (amended): the script never checks the solver status — after
`solve()` it prints the status and extracts unconditionally, returning for
every status exactly the rows it would return on `Optimal`, one per
timestamp; no `NoSolutionAvailable` failure path exists. -/
theorem C4_extraction_unconditional (status : LpStatus) (ks : List Nat)
    (kmVal mkVal : Nat → Option ℚ) :
    solveAndExtract status ks kmVal mkVal =
      solveAndExtract LpStatus.Optimal ks kmVal mkVal ∧
    (solveAndExtract status ks kmVal mkVal).length = ks.length :=
  ⟨rfl, by simp [solveAndExtract, rezultatet]⟩

/-- Counterexample to claim C5: on a timestamp present in region A's
series but absent from region B's, the build fails with the `IndexError`
of `.values[0]` — not a `MissingTimestamp` — and by then all three
decision variables for the timestamp have already been created by
`LpVariable.dicts`, contradicting "before any variable is created". -/
theorem C5_counterexample :
    (buildModel kosovoX macedoniaX).result =
      Except.error (BuildError.indexError 1) ∧
    (buildModel kosovoX macedoniaX).varsCreated =
      [Var.ruajtja_km 1, Var.ruajtja_mk 1, Var.z 1] ∧
    (buildModel kosovoX macedoniaX).varsCreated ≠ [] :=
  ⟨rfl, rfl, by decide⟩

/-- Claim C5 (amended): if a timestamp of region A's series is absent
from region B's, the build fails with an index error (the `IndexError`
raised by `.values[0]` on line 46) during constraint construction — but
only after the decision variables for every timestamp have been
created. -/
theorem C5_vars_created_before_error (kosovo macedonia : DataFrame)
    (t : Nat) (ht : t ∈ koha kosovo)
    (hmiss : lookupValue macedonia t = none) :
    (∃ u, (buildModel kosovo macedonia).result =
        Except.error (BuildError.indexError u) ∧
      lookupValue macedonia u = none) ∧
    (buildModel kosovo macedonia).varsCreated = buildVars (koha kosovo) := by
  obtain ⟨u, herr, hu⟩ :=
    buildConstraintsWith_err M kosovo macedonia (koha kosovo)
      (fun s hs => lookup_isSome_of_mem_koha kosovo s hs) t ht hmiss
  refine ⟨⟨u, ?_, hu⟩, rfl⟩
  simp only [buildModel, buildModelWith, herr]

/-- Witness for the amended C5 at the misaligned instance. -/
theorem C5_witness :
    (∃ u, (buildModel kosovoX macedoniaX).result =
        Except.error (BuildError.indexError u) ∧
      lookupValue macedoniaX u = none) ∧
    (buildModel kosovoX macedoniaX).varsCreated = buildVars (koha kosovoX) :=
  C5_vars_created_before_error kosovoX macedoniaX 1 (by decide) (by decide)

/-- Claim C8: on the empty timestamp domain the build succeeds with no
variables and no constraints, the zero valuation is optimal with
objective value 0 (every valuation is feasible and has objective 0, so
the solver's Optimal status with objective 0 is the model-level optimum),
and extraction returns the empty row sequence. -/
theorem C8_scenario_empty :
    (buildModel [] []).result = Except.ok modelE ∧
    modelE.vars = [] ∧ modelE.constraints = [] ∧
    IsOptimal modelE zeroAssign ∧ objective modelE zeroAssign = 0 ∧
    solveAndExtract LpStatus.Optimal modelE.koha
      (fun _ => some 0) (fun _ => some 0) = [] := by
  refine ⟨rfl, rfl, rfl, ⟨?_, ?_⟩, rfl, rfl⟩
  · exact ⟨fun t ht => absurd ht (by simp [modelE]),
      fun c hc => absurd hc (by simp [modelE])⟩
  · intro b _
    simp [objective, modelE]

/-- Claim C9: in every feasible solution of the model the script builds,
each export variable is bounded by the hardcoded literal 1000: the binary
flag makes each big-M bound at most `1000`, so exports can never exceed
1000 even where production does. -/
theorem C9_bigM_caps_exports (kosovo macedonia : DataFrame) (model : Model)
    (a : Assignment)
    (hb : (buildModel kosovo macedonia).result = Except.ok model)
    (hf : Feasible model a) :
    ∀ t ∈ model.koha, a.ab t ≤ 1000 ∧ a.ba t ≤ 1000 := by
  intro t ht
  obtain ⟨hab0, hba0, hz, h1, h2, _, _⟩ :=
    feasible_facts M kosovo macedonia model a hb hf t ht
  have hM : M = 1000 := rfl
  rw [hM] at h1 h2
  rcases hz with hz | hz <;> rw [hz] at h1 h2 <;>
    refine ⟨by linarith, by linarith⟩

/-- Witness for C9: on the oversized-production model, a feasible
assignment exporting 1000 < 2000 in the A→B direction. -/
theorem C9_witness : assignBig.ab 1 ≤ 1000 ∧ assignBig.ba 1 ≤ 1000 :=
  C9_bigM_caps_exports kosovoBig macedoniaBig modelBig assignBig
    buildBig_ok feasibleBig 1 (by decide)

/-- Claim C10: in every feasible solution of a model built with any big-M
value `m`, exclusivity holds regardless of the magnitude of `m`: flag 0
forces the A→B export to 0 and flag 1 forces the B→A export to 0, because
the corresponding big-M bound becomes `0 * m = 0` and the export's lower
bound is 0. -/
theorem C10_exclusivity_any_bigM (m : ℚ) (kosovo macedonia : DataFrame)
    (model : Model) (a : Assignment)
    (hb : (buildModelWith m kosovo macedonia).result = Except.ok model)
    (hf : Feasible model a) :
    ∀ t ∈ model.koha,
      (a.z t = 0 → a.ab t = 0) ∧ (a.z t = 1 → a.ba t = 0) := by
  intro t ht
  obtain ⟨hab0, hba0, _, h1, h2, _, _⟩ :=
    feasible_facts m kosovo macedonia model a hb hf t ht
  constructor
  · intro hz
    rw [hz, zero_mul] at h1
    exact le_antisymm h1 hab0
  · intro hz
    rw [hz] at h2
    norm_num at h2
    exact le_antisymm h2 hba0

/-- Witness for C10 with the deliberately undersized big-M `m = 1`. -/
theorem C10_witness :
    (zeroAssign.z 1 = 0 → zeroAssign.ab 1 = 0) ∧
    (zeroAssign.z 1 = 1 → zeroAssign.ba 1 = 0) :=
  C10_exclusivity_any_bigM 1 kosovo1 macedonia1 modelSmall1 zeroAssign
    buildSmall_ok feasibleSmall 1 (by decide)

end WindOpt
